import Mathlib

/-!
Verification of the AlienFX command-packet codec (`alienfx/core/cmdpacket.py`).

The module is a bidirectional codec for a fixed-length 12-byte binary command
protocol.  Packets are modelled as `List Int` (Python lists of unbounded
integers), the injected name-lookup collaborator as a `Controller` structure,
and the Python integer operators by their exact twos-complement semantics:
`&` is `Int.land`, `>>` is the arithmetic shift `>>>` on `Int`, `hex` is
`pyHex`, and `str` of an integer is `toString`.
-/

namespace AlienFX

/-- Python builtin `hex`: renders an integer as a lowercase hexadecimal token
with a `0x` marker, with a leading minus sign for negative inputs. -/
def pyHex (n : Int) : String :=
  if n < 0 then "-0x" ++ String.mk (Nat.toDigits 16 n.natAbs)
  else "0x" ++ String.mk (Nat.toDigits 16 n.toNat)

/-- Python rendering of a list of integers by `str.format`, e.g. `[2, 3, 1]`. -/
def pyListStr (l : List Int) : String :=
  "[" ++ String.intercalate ", " (l.map toString) ++ "]"

/-- Python slice read `l[a:b]` (for `a ≤ b`; clamped at the list end,
empty when `b ≤ a`, exactly as in Python). -/
def pySlice (l : List Int) (a b : Nat) : List Int :=
  (l.drop a).take (b - a)

/-- Python slice assignment `l[a:b] = xs`: the elements at positions
`a, …, b-1` are replaced by `xs`. -/
def pySetSlice (l : List Int) (a b : Nat) (xs : List Int) : List Int :=
  l.take a ++ xs ++ l.drop b

/-- The injected collaborator that maps raw zone / reset-type / state byte
values to human-readable names.  The codec only calls into it. -/
structure Controller where
  get_zone_name : List Int → String
  get_reset_type_name : Int → String
  get_state_name : Int → String

/-- Command code `CMD_SET_MORPH_COLOUR`. -/
def CMD_SET_MORPH_COLOUR : Int := 0x1

/-- Command code `CMD_SET_BLINK_COLOUR`. -/
def CMD_SET_BLINK_COLOUR : Int := 0x2

/-- Command code `CMD_SET_COLOUR`. -/
def CMD_SET_COLOUR : Int := 0x3

/-- Command code `CMD_LOOP_BLOCK_END`. -/
def CMD_LOOP_BLOCK_END : Int := 0x4

/-- Command code `CMD_TRANSMIT_EXECUTE`. -/
def CMD_TRANSMIT_EXECUTE : Int := 0x5

/-- Command code `CMD_GET_STATUS`. -/
def CMD_GET_STATUS : Int := 0x6

/-- Command code `CMD_RESET`. -/
def CMD_RESET : Int := 0x7

/-- Command code `CMD_SAVE_NEXT`. -/
def CMD_SAVE_NEXT : Int := 0x8

/-- Command code `CMD_SAVE`. -/
def CMD_SAVE : Int := 0x9

/-- Command code `CMD_SET_SPEED`. -/
def CMD_SET_SPEED : Int := 0xe

/-- `PACKET_LENGTH`: every well-formed packet has exactly 12 bytes. -/
def PACKET_LENGTH : Nat := 12

/-- `_unpack_colour_pair`: unpack two colour values from the given packet
slice, each channel rendered by `hex` after masking to 8 bits. -/
def _unpack_colour_pair (pkt : List Int) :
    (String × String × String) × (String × String × String) :=
  ((pyHex (Int.land (pkt.getD 0 0) 0xff),
    pyHex (Int.land (pkt.getD 1 0) 0xff),
    pyHex (Int.land (pkt.getD 2 0) 0xff)),
   (pyHex (Int.land (pkt.getD 3 0) 0xff),
    pyHex (Int.land (pkt.getD 4 0) 0xff),
    pyHex (Int.land (pkt.getD 5 0) 0xff)))

/-- `_pack_colour_pair`: pack two colours (3-member tuples) into a list of
six bytes, each channel masked to 8 bits. -/
def _pack_colour_pair (colour1 colour2 : Int × Int × Int) : List Int :=
  [Int.land colour1.1 0xff, Int.land colour1.2.1 0xff, Int.land colour1.2.2 0xff,
   Int.land colour2.1 0xff, Int.land colour2.2.1 0xff, Int.land colour2.2.2 0xff]

/-- `_unpack_colour`: unpack one colour value from the given packet slice,
each channel rendered by `hex` after masking to 8 bits. -/
def _unpack_colour (pkt : List Int) : String × String × String :=
  (pyHex (Int.land (pkt.getD 0 0) 0xff),
   pyHex (Int.land (pkt.getD 1 0) 0xff),
   pyHex (Int.land (pkt.getD 2 0) 0xff))

/-- `_pack_colour`: pack a colour (3-member tuple) into a list of three
bytes, each channel masked to 8 bits. -/
def _pack_colour (colour : Int × Int × Int) : List Int :=
  [Int.land colour.1 0xff, Int.land colour.2.1 0xff, Int.land colour.2.2 0xff]

/-- Decoder for the "set morph colour" command. -/
def _parse_cmd_set_morph_colour (pkt : List Int) (controller : Controller) : String :=
  let c := _unpack_colour_pair (pySlice pkt 6 12)
  "SET_MORPH_COLOUR: " ++ ("BLOCK: " ++ toString (pkt.getD 2 0))
    ++ (", ZONE: " ++ controller.get_zone_name (pySlice pkt 3 6))
    ++ (", (" ++ c.1.1 ++ "," ++ c.1.2.1 ++ "," ++ c.1.2.2 ++ ")-("
        ++ c.2.1 ++ "," ++ c.2.2.1 ++ "," ++ c.2.2.2 ++ ")")

/-- Decoder for the "set blink colour" command. -/
def _parse_cmd_set_blink_colour (pkt : List Int) (controller : Controller) : String :=
  let c := _unpack_colour (pySlice pkt 6 9)
  "SET_BLINK_COLOUR: " ++ ("BLOCK: " ++ toString (pkt.getD 2 0))
    ++ (", ZONE: " ++ controller.get_zone_name (pySlice pkt 3 6))
    ++ (", (" ++ c.1 ++ "," ++ c.2.1 ++ "," ++ c.2.2 ++ ")")

/-- Decoder for the "set colour" command. -/
def _parse_cmd_set_colour (pkt : List Int) (controller : Controller) : String :=
  let c := _unpack_colour (pySlice pkt 6 9)
  "SET_COLOUR: " ++ ("BLOCK: " ++ toString (pkt.getD 2 0))
    ++ (", ZONE: " ++ controller.get_zone_name (pySlice pkt 3 6))
    ++ (", (" ++ c.1 ++ "," ++ c.2.1 ++ "," ++ c.2.2 ++ ")")

/-- Decoder for the "loop block end" command. -/
def _parse_cmd_loop_block_end (_pkt : List Int) (_controller : Controller) : String :=
  "LOOP_BLOCK_END"

/-- Decoder for the "transmit execute" command. -/
def _parse_cmd_transmit_execute (_pkt : List Int) (_controller : Controller) : String :=
  "TRANSMIT_EXECUTE"

/-- Decoder for the "get status" command. -/
def _parse_cmd_get_status (_pkt : List Int) (_controller : Controller) : String :=
  "GET_STATUS"

/-- Decoder for the "reset" command. -/
def _parse_cmd_reset (pkt : List Int) (controller : Controller) : String :=
  "RESET: " ++ controller.get_reset_type_name (pkt.getD 2 0)

/-- Decoder for the "save next" command. -/
def _parse_cmd_save_next (pkt : List Int) (controller : Controller) : String :=
  "SAVE_NEXT: STATE " ++ controller.get_state_name (pkt.getD 2 0)

/-- Decoder for the "save" command. -/
def _parse_cmd_save (_pkt : List Int) (_controller : Controller) : String :=
  "SAVE"

/-- Decoder for the "set speed" command: the 16-bit big-endian value of
bytes 2-3 is rendered as a `hex` token. -/
def _parse_cmd_set_speed (pkt : List Int) (_controller : Controller) : String :=
  "SET_SPEED: " ++ pyHex (pkt.getD 2 0 * 2 ^ 8 + pkt.getD 3 0)

/-- Fallback decoder for packets whose opcode is not registered. -/
def _parse_cmd_unknown (pkt : List Int) (_controller : Controller) : String :=
  "UNKNOWN COMMAND : " ++ toString (pkt.getD 1 0) ++ (" IN PACKET " ++ pyListStr pkt)

/-- `pkt_to_string`: the decoder.  Wrong-length input yields a `BAD PACKET`
diagnostic; otherwise byte 1 is dispatched through the parser registry in
its construction order, with `_parse_cmd_unknown` as the fallback. -/
def pkt_to_string (pkt_bytes : List Int) (controller : Controller) : String :=
  if pkt_bytes.length ≠ PACKET_LENGTH then
    "BAD PACKET: " ++ pyListStr pkt_bytes
  else
    let cmd := pkt_bytes.getD 1 0
    if cmd = CMD_SET_MORPH_COLOUR then _parse_cmd_set_morph_colour pkt_bytes controller
    else if cmd = CMD_SET_BLINK_COLOUR then _parse_cmd_set_blink_colour pkt_bytes controller
    else if cmd = CMD_SET_COLOUR then _parse_cmd_set_colour pkt_bytes controller
    else if cmd = CMD_LOOP_BLOCK_END then _parse_cmd_loop_block_end pkt_bytes controller
    else if cmd = CMD_TRANSMIT_EXECUTE then _parse_cmd_transmit_execute pkt_bytes controller
    else if cmd = CMD_GET_STATUS then _parse_cmd_get_status pkt_bytes controller
    else if cmd = CMD_RESET then _parse_cmd_reset pkt_bytes controller
    else if cmd = CMD_SAVE_NEXT then _parse_cmd_save_next pkt_bytes controller
    else if cmd = CMD_SAVE then _parse_cmd_save pkt_bytes controller
    else if cmd = CMD_SET_SPEED then _parse_cmd_set_speed pkt_bytes controller
    else _parse_cmd_unknown pkt_bytes controller

/-- Encoder for the "set morph colour" command: template, then block byte,
zone bytes and the packed colour pair. -/
def make_cmd_set_morph_colour (block zone : Int) (colour1 colour2 : Int × Int × Int) :
    List Int :=
  let pkt : List Int := [0x02, CMD_SET_MORPH_COLOUR, 0, 0, 0, 0, 0, 0, 0, 0, 0, 0]
  let pkt := pkt.set 2 (Int.land block 0xff)
  let pkt := pySetSlice pkt 3 6
    [(Int.land zone 0xff0000) >>> (16 : Int), (Int.land zone 0xff00) >>> (8 : Int),
     Int.land zone 0xff]
  let pkt := pySetSlice pkt 6 12 (_pack_colour_pair colour1 colour2)
  pkt

/-- Encoder for the "set blink colour" command. -/
def make_cmd_set_blink_colour (block zone : Int) (colour : Int × Int × Int) : List Int :=
  let pkt : List Int := [0x02, CMD_SET_BLINK_COLOUR, 0, 0, 0, 0, 0, 0, 0, 0, 0, 0]
  let pkt := pkt.set 2 (Int.land block 0xff)
  let pkt := pySetSlice pkt 3 6
    [(Int.land zone 0xff0000) >>> (16 : Int), (Int.land zone 0xff00) >>> (8 : Int),
     Int.land zone 0xff]
  let pkt := pySetSlice pkt 6 9 (_pack_colour colour)
  pkt

/-- Encoder for the "set colour" command. -/
def make_cmd_set_colour (block zone : Int) (colour : Int × Int × Int) : List Int :=
  let pkt : List Int := [0x02, CMD_SET_COLOUR, 0, 0, 0, 0, 0, 0, 0, 0, 0, 0]
  let pkt := pkt.set 2 (Int.land block 0xff)
  let pkt := pySetSlice pkt 3 6
    [(Int.land zone 0xff0000) >>> (16 : Int), (Int.land zone 0xff00) >>> (8 : Int),
     Int.land zone 0xff]
  let pkt := pySetSlice pkt 6 9 (_pack_colour colour)
  pkt

/-- Encoder for the "loop block end" command. -/
def make_cmd_loop_block_end : List Int :=
  [0x02, CMD_LOOP_BLOCK_END, 0, 0, 0, 0, 0, 0, 0, 0, 0, 0]

/-- Encoder for the "transmit execute" command. -/
def make_cmd_transmit_execute : List Int :=
  [0x02, CMD_TRANSMIT_EXECUTE, 0, 0, 0, 0, 0, 0, 0, 0, 0, 0]

/-- Encoder for the "get status" command. -/
def make_cmd_get_status : List Int :=
  [0x02, CMD_GET_STATUS, 0, 0, 0, 0, 0, 0, 0, 0, 0, 0]

/-- Encoder for the "reset" command. -/
def make_cmd_reset (reset_type : Int) : List Int :=
  let pkt : List Int := [0x02, CMD_RESET, 0, 0, 0, 0, 0, 0, 0, 0, 0, 0]
  let pkt := pkt.set 2 (Int.land reset_type 0xff)
  pkt

/-- Encoder for the "save next" command. -/
def make_cmd_save_next (state : Int) : List Int :=
  let pkt : List Int := [0x02, CMD_SAVE_NEXT, 0, 0, 0, 0, 0, 0, 0, 0, 0, 0]
  let pkt := pkt.set 2 (Int.land state 0xff)
  pkt

/-- Encoder for the "save" command. -/
def make_cmd_save : List Int :=
  [0x02, CMD_SAVE, 0, 0, 0, 0, 0, 0, 0, 0, 0, 0]

/-- Encoder for the "set speed" command: the speed is packed big-endian
into bytes 2-3. -/
def make_cmd_set_speed (speed : Int) : List Int :=
  let pkt : List Int := [0x02, CMD_SET_SPEED, 0, 0, 0, 0, 0, 0, 0, 0, 0, 0]
  let pkt := pySetSlice pkt 2 4 [(Int.land speed 0xff00) >>> (8 : Int), Int.land speed 0xff]
  pkt

/-- Operational model of `_unpack_colour_pair`: the Python indexings
`pkt[0]` … `pkt[5]` are made explicit as fallible lookups, so that the
absence of `IndexError` is provable rather than assumed. -/
def _unpack_colour_pair_run (pkt : List Int) :
    Option ((String × String × String) × (String × String × String)) := do
  let red1 ← pkt.get? 0
  let green1 ← pkt.get? 1
  let blue1 ← pkt.get? 2
  let red2 ← pkt.get? 3
  let green2 ← pkt.get? 4
  let blue2 ← pkt.get? 5
  pure ((pyHex (Int.land red1 0xff), pyHex (Int.land green1 0xff), pyHex (Int.land blue1 0xff)),
        (pyHex (Int.land red2 0xff), pyHex (Int.land green2 0xff), pyHex (Int.land blue2 0xff)))

/-- Operational model of `_unpack_colour` with fallible indexing. -/
def _unpack_colour_run (pkt : List Int) : Option (String × String × String) := do
  let red ← pkt.get? 0
  let green ← pkt.get? 1
  let blue ← pkt.get? 2
  pure (pyHex (Int.land red 0xff), pyHex (Int.land green 0xff), pyHex (Int.land blue 0xff))

/-- Operational model of the "set morph colour" decoder: fallible indexing
made explicit, and the packet buffer returned alongside the message to
witness that the decoder never writes to it. -/
def _parse_cmd_set_morph_colour_run (pkt : List Int) (controller : Controller) :
    Option (String × List Int) := do
  let c ← _unpack_colour_pair_run (pySlice pkt 6 12)
  let blk ← pkt.get? 2
  pure ("SET_MORPH_COLOUR: " ++ ("BLOCK: " ++ toString blk)
    ++ (", ZONE: " ++ controller.get_zone_name (pySlice pkt 3 6))
    ++ (", (" ++ c.1.1 ++ "," ++ c.1.2.1 ++ "," ++ c.1.2.2 ++ ")-("
        ++ c.2.1 ++ "," ++ c.2.2.1 ++ "," ++ c.2.2.2 ++ ")"), pkt)

/-- Operational model of the "set blink colour" decoder. -/
def _parse_cmd_set_blink_colour_run (pkt : List Int) (controller : Controller) :
    Option (String × List Int) := do
  let c ← _unpack_colour_run (pySlice pkt 6 9)
  let blk ← pkt.get? 2
  pure ("SET_BLINK_COLOUR: " ++ ("BLOCK: " ++ toString blk)
    ++ (", ZONE: " ++ controller.get_zone_name (pySlice pkt 3 6))
    ++ (", (" ++ c.1 ++ "," ++ c.2.1 ++ "," ++ c.2.2 ++ ")"), pkt)

/-- Operational model of the "set colour" decoder. -/
def _parse_cmd_set_colour_run (pkt : List Int) (controller : Controller) :
    Option (String × List Int) := do
  let c ← _unpack_colour_run (pySlice pkt 6 9)
  let blk ← pkt.get? 2
  pure ("SET_COLOUR: " ++ ("BLOCK: " ++ toString blk)
    ++ (", ZONE: " ++ controller.get_zone_name (pySlice pkt 3 6))
    ++ (", (" ++ c.1 ++ "," ++ c.2.1 ++ "," ++ c.2.2 ++ ")"), pkt)

/-- Operational model of the "loop block end" decoder. -/
def _parse_cmd_loop_block_end_run (pkt : List Int) (_controller : Controller) :
    Option (String × List Int) :=
  pure ("LOOP_BLOCK_END", pkt)

/-- Operational model of the "transmit execute" decoder. -/
def _parse_cmd_transmit_execute_run (pkt : List Int) (_controller : Controller) :
    Option (String × List Int) :=
  pure ("TRANSMIT_EXECUTE", pkt)

/-- Operational model of the "get status" decoder. -/
def _parse_cmd_get_status_run (pkt : List Int) (_controller : Controller) :
    Option (String × List Int) :=
  pure ("GET_STATUS", pkt)

/-- Operational model of the "reset" decoder. -/
def _parse_cmd_reset_run (pkt : List Int) (controller : Controller) :
    Option (String × List Int) := do
  let rt ← pkt.get? 2
  pure ("RESET: " ++ controller.get_reset_type_name rt, pkt)

/-- Operational model of the "save next" decoder. -/
def _parse_cmd_save_next_run (pkt : List Int) (controller : Controller) :
    Option (String × List Int) := do
  let st ← pkt.get? 2
  pure ("SAVE_NEXT: STATE " ++ controller.get_state_name st, pkt)

/-- Operational model of the "save" decoder. -/
def _parse_cmd_save_run (pkt : List Int) (_controller : Controller) :
    Option (String × List Int) :=
  pure ("SAVE", pkt)

/-- Operational model of the "set speed" decoder. -/
def _parse_cmd_set_speed_run (pkt : List Int) (_controller : Controller) :
    Option (String × List Int) := do
  let hi ← pkt.get? 2
  let lo ← pkt.get? 3
  pure ("SET_SPEED: " ++ pyHex (hi * 2 ^ 8 + lo), pkt)

/-- Operational model of the fallback decoder. -/
def _parse_cmd_unknown_run (pkt : List Int) (_controller : Controller) :
    Option (String × List Int) := do
  let op ← pkt.get? 1
  pure ("UNKNOWN COMMAND : " ++ toString op ++ (" IN PACKET " ++ pyListStr pkt), pkt)

/-- Operational model of `pkt_to_string`: every Python list indexing is a
fallible lookup, and the packet buffer travels through the call and is
returned, so totality and non-mutation are provable statements. -/
def pkt_to_string_run (pkt_bytes : List Int) (controller : Controller) :
    Option (String × List Int) :=
  if pkt_bytes.length ≠ PACKET_LENGTH then
    some ("BAD PACKET: " ++ pyListStr pkt_bytes, pkt_bytes)
  else do
    let cmd ← pkt_bytes.get? 1
    if cmd = CMD_SET_MORPH_COLOUR then _parse_cmd_set_morph_colour_run pkt_bytes controller
    else if cmd = CMD_SET_BLINK_COLOUR then _parse_cmd_set_blink_colour_run pkt_bytes controller
    else if cmd = CMD_SET_COLOUR then _parse_cmd_set_colour_run pkt_bytes controller
    else if cmd = CMD_LOOP_BLOCK_END then _parse_cmd_loop_block_end_run pkt_bytes controller
    else if cmd = CMD_TRANSMIT_EXECUTE then _parse_cmd_transmit_execute_run pkt_bytes controller
    else if cmd = CMD_GET_STATUS then _parse_cmd_get_status_run pkt_bytes controller
    else if cmd = CMD_RESET then _parse_cmd_reset_run pkt_bytes controller
    else if cmd = CMD_SAVE_NEXT then _parse_cmd_save_next_run pkt_bytes controller
    else if cmd = CMD_SAVE then _parse_cmd_save_run pkt_bytes controller
    else if cmd = CMD_SET_SPEED then _parse_cmd_set_speed_run pkt_bytes controller
    else _parse_cmd_unknown_run pkt_bytes controller

/-- The ten registered opcodes, in registry construction order. -/
def knownCmds : List Int :=
  [CMD_SET_MORPH_COLOUR, CMD_SET_BLINK_COLOUR, CMD_SET_COLOUR, CMD_LOOP_BLOCK_END,
   CMD_TRANSMIT_EXECUTE, CMD_GET_STATUS, CMD_RESET, CMD_SAVE_NEXT, CMD_SAVE, CMD_SET_SPEED]

/-- The literal name token the diagnostic string of each known opcode starts with. -/
def cmd_name (cmd : Int) : String :=
  if cmd = CMD_SET_MORPH_COLOUR then "SET_MORPH_COLOUR"
  else if cmd = CMD_SET_BLINK_COLOUR then "SET_BLINK_COLOUR"
  else if cmd = CMD_SET_COLOUR then "SET_COLOUR"
  else if cmd = CMD_LOOP_BLOCK_END then "LOOP_BLOCK_END"
  else if cmd = CMD_TRANSMIT_EXECUTE then "TRANSMIT_EXECUTE"
  else if cmd = CMD_GET_STATUS then "GET_STATUS"
  else if cmd = CMD_RESET then "RESET"
  else if cmd = CMD_SAVE_NEXT then "SAVE_NEXT"
  else if cmd = CMD_SAVE then "SAVE"
  else if cmd = CMD_SET_SPEED then "SET_SPEED"
  else ""

/-- A controller whose lookups all return the empty string; used to
instantiate universally quantified statements at a concrete collaborator. -/
def nullController : Controller :=
  ⟨fun _ => "", fun _ => "", fun _ => ""⟩

/-- A controller whose zone lookup always answers `"Logo"`. -/
def logoController : Controller :=
  ⟨fun _ => "Logo", fun _ => "", fun _ => ""⟩

theorem nat_and_shift (n k : Nat) : (n &&& (255 <<< k)) >>> k = (n >>> k) &&& 255 := by
  apply Nat.eq_of_testBit_eq
  intro i
  simp only [Nat.testBit_shiftRight, Nat.testBit_and, Nat.testBit_shiftLeft]
  have h2 : k + i - k = i := by omega
  have h3 : k + i ≥ k := Nat.le_add_right k i
  simp [h2, h3]

theorem nat_ldiff_shift (n k : Nat) :
    (Nat.ldiff (255 <<< k) n) >>> k = Nat.ldiff 255 (n >>> k) := by
  apply Nat.eq_of_testBit_eq
  intro i
  simp only [Nat.testBit_shiftRight, Nat.testBit_ldiff, Nat.testBit_shiftLeft]
  have h2 : k + i - k = i := by omega
  have h3 : k + i ≥ k := Nat.le_add_right k i
  simp [h2, h3]

theorem int_mask_shift (z : Int) (k : Nat) :
    (Int.land z (Int.ofNat (255 <<< k))) >>> (k : Int) = Int.land (z >>> (k : Int)) 255 := by
  cases z with
  | ofNat n =>
      show ((↑(n &&& (255 <<< k)) : Int) >>> ((k : Nat) : Int))
          = Int.land ((↑n : Int) >>> ((k : Nat) : Int)) 255
      rw [Int.shiftRight_coe_nat, Int.shiftRight_coe_nat]
      exact congrArg Int.ofNat (nat_and_shift n k)
  | negSucc n =>
      show ((↑(Nat.ldiff (255 <<< k) n) : Int) >>> ((k : Nat) : Int))
          = Int.land (Int.negSucc n >>> ((k : Nat) : Int)) 255
      rw [Int.shiftRight_coe_nat, Int.shiftRight_negSucc]
      exact congrArg Int.ofNat (nat_ldiff_shift n k)

theorem mask_hi_byte (z : Int) :
    (Int.land z 0xff0000) >>> (16 : Int) = Int.land (z >>> (16 : Int)) 0xff :=
  int_mask_shift z 16

theorem mask_mid_byte (z : Int) :
    (Int.land z 0xff00) >>> (8 : Int) = Int.land (z >>> (8 : Int)) 0xff :=
  int_mask_shift z 8

/-- C1: `make_cmd_set_colour` with block 1, zone 0x010203 and colour
(255,0,128) returns exactly the 12-byte packet
`[0x02, 0x03, 1, 1, 2, 3, 255, 0, 128, 0, 0, 0]`: marker 0x02, opcode 0x3,
block at byte 2, the zone big-endian at bytes 3-5, the colour channels in
red, green, blue order at bytes 6-8, and bytes 9-11 zero. -/
theorem make_cmd_set_colour_scenario :
    make_cmd_set_colour 1 0x010203 (255, 0, 128)
      = [0x02, 0x03, 1, 1, 2, 3, 255, 0, 128, 0, 0, 0] := by
  decide

/-- C3: for every integer zone, of any magnitude or sign, the three zone
bytes placed at offsets 3-5 by `make_cmd_set_morph_colour`,
`make_cmd_set_blink_colour` and `make_cmd_set_colour` are the big-endian
triple `[(zone >> 16) & 0xff, (zone >> 8) & 0xff, zone & 0xff]`; and every
other encoder field is likewise masked to its declared width: the block,
reset-type, state and colour-channel bytes are each masked to 8 bits, and
the speed is packed big-endian as `[(speed >> 8) & 0xff, speed & 0xff]`. -/
theorem encoder_field_masking (zone block speed reset_type state : Int)
    (colour colour1 colour2 : Int × Int × Int) :
    (pySlice (make_cmd_set_morph_colour block zone colour1 colour2) 3 6
        = [Int.land (zone >>> (16 : Int)) 0xff, Int.land (zone >>> (8 : Int)) 0xff,
           Int.land zone 0xff]
      ∧ pySlice (make_cmd_set_blink_colour block zone colour) 3 6
        = [Int.land (zone >>> (16 : Int)) 0xff, Int.land (zone >>> (8 : Int)) 0xff,
           Int.land zone 0xff]
      ∧ pySlice (make_cmd_set_colour block zone colour) 3 6
        = [Int.land (zone >>> (16 : Int)) 0xff, Int.land (zone >>> (8 : Int)) 0xff,
           Int.land zone 0xff])
    ∧ ((make_cmd_set_morph_colour block zone colour1 colour2).getD 2 0 = Int.land block 0xff
      ∧ (make_cmd_set_blink_colour block zone colour).getD 2 0 = Int.land block 0xff
      ∧ (make_cmd_set_colour block zone colour).getD 2 0 = Int.land block 0xff
      ∧ (make_cmd_reset reset_type).getD 2 0 = Int.land reset_type 0xff
      ∧ (make_cmd_save_next state).getD 2 0 = Int.land state 0xff)
    ∧ (pySlice (make_cmd_set_colour block zone colour) 6 9
        = [Int.land colour.1 0xff, Int.land colour.2.1 0xff, Int.land colour.2.2 0xff]
      ∧ pySlice (make_cmd_set_blink_colour block zone colour) 6 9
        = [Int.land colour.1 0xff, Int.land colour.2.1 0xff, Int.land colour.2.2 0xff]
      ∧ pySlice (make_cmd_set_morph_colour block zone colour1 colour2) 6 12
        = [Int.land colour1.1 0xff, Int.land colour1.2.1 0xff, Int.land colour1.2.2 0xff,
           Int.land colour2.1 0xff, Int.land colour2.2.1 0xff, Int.land colour2.2.2 0xff])
    ∧ pySlice (make_cmd_set_speed speed) 2 4
        = [Int.land (speed >>> (8 : Int)) 0xff, Int.land speed 0xff] := by
  refine ⟨⟨?_, ?_, ?_⟩, ⟨rfl, rfl, rfl, rfl, rfl⟩, ⟨rfl, rfl, rfl⟩, ?_⟩
  · show [(Int.land zone 0xff0000) >>> (16 : Int), (Int.land zone 0xff00) >>> (8 : Int),
          Int.land zone 0xff] = _
    rw [mask_hi_byte, mask_mid_byte]
  · show [(Int.land zone 0xff0000) >>> (16 : Int), (Int.land zone 0xff00) >>> (8 : Int),
          Int.land zone 0xff] = _
    rw [mask_hi_byte, mask_mid_byte]
  · show [(Int.land zone 0xff0000) >>> (16 : Int), (Int.land zone 0xff00) >>> (8 : Int),
          Int.land zone 0xff] = _
    rw [mask_hi_byte, mask_mid_byte]
  · show [(Int.land speed 0xff00) >>> (8 : Int), Int.land speed 0xff] = _
    rw [mask_mid_byte]

/-- C4: for every byte sequence whose length is not 12 and every
controller, the decoder returns the string `"BAD PACKET: "` followed by the
rendering of the input sequence, as a normal result. -/
theorem decode_bad_packet_of_wrong_length (p : List Int) (ctrl : Controller)
    (h : p.length ≠ 12) :
    pkt_to_string p ctrl = "BAD PACKET: " ++ pyListStr p := by
  simp only [pkt_to_string, PACKET_LENGTH]
  rw [if_pos h]

theorem decode_bad_packet_of_wrong_length_witness :
    ([2, 3, 1, 2, 3] : List Int).length ≠ 12
      ∧ pkt_to_string [2, 3, 1, 2, 3] nullController
          = "BAD PACKET: " ++ pyListStr [2, 3, 1, 2, 3] :=
  ⟨by decide, decode_bad_packet_of_wrong_length [2, 3, 1, 2, 3] nullController (by decide)⟩

/-- C5: for every 12-byte packet whose byte 1 is none of the ten known
opcodes and every controller, the decoder answers through the fallback
path with `"UNKNOWN COMMAND : <opcode> IN PACKET <packet>"`. -/
theorem decode_unknown_command (p : List Int) (ctrl : Controller)
    (hlen : p.length = 12) (hcmd : p.getD 1 0 ∉ knownCmds) :
    pkt_to_string p ctrl
      = "UNKNOWN COMMAND : " ++ toString (p.getD 1 0) ++ (" IN PACKET " ++ pyListStr p) := by
  simp only [knownCmds, CMD_SET_MORPH_COLOUR, CMD_SET_BLINK_COLOUR, CMD_SET_COLOUR,
    CMD_LOOP_BLOCK_END, CMD_TRANSMIT_EXECUTE, CMD_GET_STATUS, CMD_RESET, CMD_SAVE_NEXT,
    CMD_SAVE, CMD_SET_SPEED, List.mem_cons, List.not_mem_nil, or_false, not_or] at hcmd
  obtain ⟨h1, h2, h3, h4, h5, h6, h7, h8, h9, h10⟩ := hcmd
  simp only [pkt_to_string, PACKET_LENGTH, CMD_SET_MORPH_COLOUR, CMD_SET_BLINK_COLOUR,
    CMD_SET_COLOUR, CMD_LOOP_BLOCK_END, CMD_TRANSMIT_EXECUTE, CMD_GET_STATUS, CMD_RESET,
    CMD_SAVE_NEXT, CMD_SAVE, CMD_SET_SPEED, _parse_cmd_unknown]
  rw [if_neg (by simp [hlen]), if_neg h1, if_neg h2, if_neg h3, if_neg h4, if_neg h5,
      if_neg h6, if_neg h7, if_neg h8, if_neg h9, if_neg h10]

theorem decode_unknown_command_witness :
    ([2, 255, 0, 0, 0, 0, 0, 0, 0, 0, 0, 0] : List Int).length = 12
      ∧ ([2, 255, 0, 0, 0, 0, 0, 0, 0, 0, 0, 0] : List Int).getD 1 0 ∉ knownCmds
      ∧ pkt_to_string [2, 255, 0, 0, 0, 0, 0, 0, 0, 0, 0, 0] nullController
          = "UNKNOWN COMMAND : "
              ++ toString (([2, 255, 0, 0, 0, 0, 0, 0, 0, 0, 0, 0] : List Int).getD 1 0)
              ++ (" IN PACKET " ++ pyListStr [2, 255, 0, 0, 0, 0, 0, 0, 0, 0, 0, 0]) :=
  ⟨by decide, by decide,
    decode_unknown_command [2, 255, 0, 0, 0, 0, 0, 0, 0, 0, 0, 0] nullController
      (by decide) (by decide)⟩

/-- C7: `make_cmd_set_speed 300` packs the speed big-endian into bytes 2-3
as `[0x01, 0x2c]`, and decoding the resulting packet with any controller
yields `"SET_SPEED: 0x12c"`, the 16-bit big-endian value of bytes 2-3
rendered as a hexadecimal token. -/
theorem set_speed_scenario (ctrl : Controller) :
    pySlice (make_cmd_set_speed 300) 2 4 = [0x01, 0x2c]
      ∧ pkt_to_string (make_cmd_set_speed 300) ctrl = "SET_SPEED: 0x12c" :=
  ⟨by decide, rfl⟩


/-- C2: decoding the packet `[0x02,0x03,1,1,2,3,255,0,128,0,0,0]` with a
controller whose zone lookup on bytes 3-5 (the list `[1, 2, 3]`) answers
`"Logo"` yields exactly `"SET_COLOUR: BLOCK: 1, ZONE: Logo, (0xff,0x0,0x80)"`,
each colour channel rendered as a hexadecimal-prefixed token. -/
theorem decode_set_colour_scenario (ctrl : Controller)
    (h : ctrl.get_zone_name [1, 2, 3] = "Logo") :
    pkt_to_string [0x02, 0x03, 1, 1, 2, 3, 255, 0, 128, 0, 0, 0] ctrl
      = "SET_COLOUR: BLOCK: 1, ZONE: Logo, (0xff,0x0,0x80)" := by
  have h2 : pkt_to_string [0x02, 0x03, 1, 1, 2, 3, 255, 0, 128, 0, 0, 0] ctrl
      = "SET_COLOUR: " ++ ("BLOCK: " ++ toString (1 : Int))
        ++ (", ZONE: " ++ ctrl.get_zone_name [1, 2, 3])
        ++ (", (" ++ "0xff" ++ "," ++ "0x0" ++ "," ++ "0x80" ++ ")") := rfl
  rw [h2, h]
  decide

theorem decode_set_colour_scenario_witness :
    logoController.get_zone_name [1, 2, 3] = "Logo"
      ∧ pkt_to_string [0x02, 0x03, 1, 1, 2, 3, 255, 0, 128, 0, 0, 0] logoController
          = "SET_COLOUR: BLOCK: 1, ZONE: Logo, (0xff,0x0,0x80)" :=
  ⟨rfl, decode_set_colour_scenario logoController rfl⟩

/-- C6: every encoder returns a packet of length exactly 12 whose byte 0 is
the 0x02 marker and whose byte 1 is the opcode of that command, and every byte
the command does not overwrite is 0. -/
theorem make_cmd_invariants (block zone reset_type state speed : Int)
    (colour colour1 colour2 : Int × Int × Int) :
    ((make_cmd_set_morph_colour block zone colour1 colour2).length = 12
      ∧ (make_cmd_set_morph_colour block zone colour1 colour2).getD 0 0 = 0x02
      ∧ (make_cmd_set_morph_colour block zone colour1 colour2).getD 1 0
          = CMD_SET_MORPH_COLOUR)
    ∧ ((make_cmd_set_blink_colour block zone colour).length = 12
      ∧ (make_cmd_set_blink_colour block zone colour).getD 0 0 = 0x02
      ∧ (make_cmd_set_blink_colour block zone colour).getD 1 0 = CMD_SET_BLINK_COLOUR
      ∧ pySlice (make_cmd_set_blink_colour block zone colour) 9 12 = [0, 0, 0])
    ∧ ((make_cmd_set_colour block zone colour).length = 12
      ∧ (make_cmd_set_colour block zone colour).getD 0 0 = 0x02
      ∧ (make_cmd_set_colour block zone colour).getD 1 0 = CMD_SET_COLOUR
      ∧ pySlice (make_cmd_set_colour block zone colour) 9 12 = [0, 0, 0])
    ∧ (make_cmd_loop_block_end.length = 12
      ∧ make_cmd_loop_block_end.getD 0 0 = 0x02
      ∧ make_cmd_loop_block_end.getD 1 0 = CMD_LOOP_BLOCK_END
      ∧ pySlice make_cmd_loop_block_end 2 12 = [0, 0, 0, 0, 0, 0, 0, 0, 0, 0])
    ∧ (make_cmd_transmit_execute.length = 12
      ∧ make_cmd_transmit_execute.getD 0 0 = 0x02
      ∧ make_cmd_transmit_execute.getD 1 0 = CMD_TRANSMIT_EXECUTE
      ∧ pySlice make_cmd_transmit_execute 2 12 = [0, 0, 0, 0, 0, 0, 0, 0, 0, 0])
    ∧ (make_cmd_get_status.length = 12
      ∧ make_cmd_get_status.getD 0 0 = 0x02
      ∧ make_cmd_get_status.getD 1 0 = CMD_GET_STATUS
      ∧ pySlice make_cmd_get_status 2 12 = [0, 0, 0, 0, 0, 0, 0, 0, 0, 0])
    ∧ ((make_cmd_reset reset_type).length = 12
      ∧ (make_cmd_reset reset_type).getD 0 0 = 0x02
      ∧ (make_cmd_reset reset_type).getD 1 0 = CMD_RESET
      ∧ pySlice (make_cmd_reset reset_type) 3 12 = [0, 0, 0, 0, 0, 0, 0, 0, 0])
    ∧ ((make_cmd_save_next state).length = 12
      ∧ (make_cmd_save_next state).getD 0 0 = 0x02
      ∧ (make_cmd_save_next state).getD 1 0 = CMD_SAVE_NEXT
      ∧ pySlice (make_cmd_save_next state) 3 12 = [0, 0, 0, 0, 0, 0, 0, 0, 0])
    ∧ (make_cmd_save.length = 12
      ∧ make_cmd_save.getD 0 0 = 0x02
      ∧ make_cmd_save.getD 1 0 = CMD_SAVE
      ∧ pySlice make_cmd_save 2 12 = [0, 0, 0, 0, 0, 0, 0, 0, 0, 0])
    ∧ ((make_cmd_set_speed speed).length = 12
      ∧ (make_cmd_set_speed speed).getD 0 0 = 0x02
      ∧ (make_cmd_set_speed speed).getD 1 0 = CMD_SET_SPEED
      ∧ pySlice (make_cmd_set_speed speed) 4 12 = [0, 0, 0, 0, 0, 0, 0, 0]) :=
  ⟨⟨rfl, rfl, rfl⟩, ⟨rfl, rfl, rfl, rfl⟩, ⟨rfl, rfl, rfl, rfl⟩, ⟨rfl, rfl, rfl, rfl⟩,
   ⟨rfl, rfl, rfl, rfl⟩, ⟨rfl, rfl, rfl, rfl⟩, ⟨rfl, rfl, rfl, rfl⟩,
   ⟨rfl, rfl, rfl, rfl⟩, ⟨rfl, rfl, rfl, rfl⟩, ⟨rfl, rfl, rfl, rfl⟩⟩


theorem append4_head (t u a b c : String) :
    ∃ r, (((t ++ u) ++ a) ++ b) ++ c = t ++ r :=
  ⟨u ++ (a ++ (b ++ c)), by simp only [String.append_assoc]⟩

theorem append2_head (t u a : String) :
    ∃ r, (t ++ u) ++ a = t ++ r :=
  ⟨u ++ a, by simp only [String.append_assoc]⟩

theorem decode_dispatch_morph (p : List Int) (ctrl : Controller)
    (hlen : p.length = 12) (h : p.getD 1 0 = CMD_SET_MORPH_COLOUR) :
    pkt_to_string p ctrl = _parse_cmd_set_morph_colour p ctrl := by
  simp only [pkt_to_string, PACKET_LENGTH]
  rw [if_neg (by simp [hlen]), if_pos h]

theorem decode_dispatch_blink (p : List Int) (ctrl : Controller)
    (hlen : p.length = 12) (h : p.getD 1 0 = CMD_SET_BLINK_COLOUR) :
    pkt_to_string p ctrl = _parse_cmd_set_blink_colour p ctrl := by
  simp only [pkt_to_string, PACKET_LENGTH]
  rw [if_neg (by simp [hlen]),
    if_neg (by rw [h]; decide), if_pos h]

theorem decode_dispatch_colour (p : List Int) (ctrl : Controller)
    (hlen : p.length = 12) (h : p.getD 1 0 = CMD_SET_COLOUR) :
    pkt_to_string p ctrl = _parse_cmd_set_colour p ctrl := by
  simp only [pkt_to_string, PACKET_LENGTH]
  rw [if_neg (by simp [hlen]),
    if_neg (by rw [h]; decide),
    if_neg (by rw [h]; decide), if_pos h]

theorem decode_dispatch_loop_block_end (p : List Int) (ctrl : Controller)
    (hlen : p.length = 12) (h : p.getD 1 0 = CMD_LOOP_BLOCK_END) :
    pkt_to_string p ctrl = _parse_cmd_loop_block_end p ctrl := by
  simp only [pkt_to_string, PACKET_LENGTH]
  rw [if_neg (by simp [hlen]),
    if_neg (by rw [h]; decide),
    if_neg (by rw [h]; decide),
    if_neg (by rw [h]; decide), if_pos h]

theorem decode_dispatch_transmit_execute (p : List Int) (ctrl : Controller)
    (hlen : p.length = 12) (h : p.getD 1 0 = CMD_TRANSMIT_EXECUTE) :
    pkt_to_string p ctrl = _parse_cmd_transmit_execute p ctrl := by
  simp only [pkt_to_string, PACKET_LENGTH]
  rw [if_neg (by simp [hlen]),
    if_neg (by rw [h]; decide),
    if_neg (by rw [h]; decide),
    if_neg (by rw [h]; decide),
    if_neg (by rw [h]; decide), if_pos h]

theorem decode_dispatch_get_status (p : List Int) (ctrl : Controller)
    (hlen : p.length = 12) (h : p.getD 1 0 = CMD_GET_STATUS) :
    pkt_to_string p ctrl = _parse_cmd_get_status p ctrl := by
  simp only [pkt_to_string, PACKET_LENGTH]
  rw [if_neg (by simp [hlen]),
    if_neg (by rw [h]; decide),
    if_neg (by rw [h]; decide),
    if_neg (by rw [h]; decide),
    if_neg (by rw [h]; decide),
    if_neg (by rw [h]; decide), if_pos h]

theorem decode_dispatch_reset (p : List Int) (ctrl : Controller)
    (hlen : p.length = 12) (h : p.getD 1 0 = CMD_RESET) :
    pkt_to_string p ctrl = _parse_cmd_reset p ctrl := by
  simp only [pkt_to_string, PACKET_LENGTH]
  rw [if_neg (by simp [hlen]),
    if_neg (by rw [h]; decide),
    if_neg (by rw [h]; decide),
    if_neg (by rw [h]; decide),
    if_neg (by rw [h]; decide),
    if_neg (by rw [h]; decide),
    if_neg (by rw [h]; decide), if_pos h]

theorem decode_dispatch_save_next (p : List Int) (ctrl : Controller)
    (hlen : p.length = 12) (h : p.getD 1 0 = CMD_SAVE_NEXT) :
    pkt_to_string p ctrl = _parse_cmd_save_next p ctrl := by
  simp only [pkt_to_string, PACKET_LENGTH]
  rw [if_neg (by simp [hlen]),
    if_neg (by rw [h]; decide),
    if_neg (by rw [h]; decide),
    if_neg (by rw [h]; decide),
    if_neg (by rw [h]; decide),
    if_neg (by rw [h]; decide),
    if_neg (by rw [h]; decide),
    if_neg (by rw [h]; decide), if_pos h]

theorem decode_dispatch_save (p : List Int) (ctrl : Controller)
    (hlen : p.length = 12) (h : p.getD 1 0 = CMD_SAVE) :
    pkt_to_string p ctrl = _parse_cmd_save p ctrl := by
  simp only [pkt_to_string, PACKET_LENGTH]
  rw [if_neg (by simp [hlen]),
    if_neg (by rw [h]; decide),
    if_neg (by rw [h]; decide),
    if_neg (by rw [h]; decide),
    if_neg (by rw [h]; decide),
    if_neg (by rw [h]; decide),
    if_neg (by rw [h]; decide),
    if_neg (by rw [h]; decide),
    if_neg (by rw [h]; decide), if_pos h]

theorem decode_dispatch_set_speed (p : List Int) (ctrl : Controller)
    (hlen : p.length = 12) (h : p.getD 1 0 = CMD_SET_SPEED) :
    pkt_to_string p ctrl = _parse_cmd_set_speed p ctrl := by
  simp only [pkt_to_string, PACKET_LENGTH]
  rw [if_neg (by simp [hlen]),
    if_neg (by rw [h]; decide),
    if_neg (by rw [h]; decide),
    if_neg (by rw [h]; decide),
    if_neg (by rw [h]; decide),
    if_neg (by rw [h]; decide),
    if_neg (by rw [h]; decide),
    if_neg (by rw [h]; decide),
    if_neg (by rw [h]; decide),
    if_neg (by rw [h]; decide), if_pos h]

/-- C8: for every 12-byte packet whose byte 1 is a known opcode and every
controller, the decoded string starts with the literal name token of that
command (`SET_MORPH_COLOUR`, …, `SET_SPEED`). -/
theorem decode_known_opcode_starts_with_name (p : List Int) (ctrl : Controller)
    (hlen : p.length = 12) (hcmd : p.getD 1 0 ∈ knownCmds) :
    ∃ rest, pkt_to_string p ctrl = cmd_name (p.getD 1 0) ++ rest := by
  simp only [knownCmds, CMD_SET_MORPH_COLOUR, CMD_SET_BLINK_COLOUR, CMD_SET_COLOUR,
    CMD_LOOP_BLOCK_END, CMD_TRANSMIT_EXECUTE, CMD_GET_STATUS, CMD_RESET, CMD_SAVE_NEXT,
    CMD_SAVE, CMD_SET_SPEED, List.mem_cons, List.not_mem_nil, or_false] at hcmd
  rcases hcmd with h|h|h|h|h|h|h|h|h|h
  · rw [decode_dispatch_morph p ctrl hlen h, h]
    rw [show cmd_name 1 = "SET_MORPH_COLOUR" from rfl]
    simp only [_parse_cmd_set_morph_colour]
    rw [show ("SET_MORPH_COLOUR: " : String) = "SET_MORPH_COLOUR" ++ ": " from rfl]
    exact append4_head _ _ _ _ _
  · rw [decode_dispatch_blink p ctrl hlen h, h]
    rw [show cmd_name 2 = "SET_BLINK_COLOUR" from rfl]
    simp only [_parse_cmd_set_blink_colour]
    rw [show ("SET_BLINK_COLOUR: " : String) = "SET_BLINK_COLOUR" ++ ": " from rfl]
    exact append4_head _ _ _ _ _
  · rw [decode_dispatch_colour p ctrl hlen h, h]
    rw [show cmd_name 3 = "SET_COLOUR" from rfl]
    simp only [_parse_cmd_set_colour]
    rw [show ("SET_COLOUR: " : String) = "SET_COLOUR" ++ ": " from rfl]
    exact append4_head _ _ _ _ _
  · rw [decode_dispatch_loop_block_end p ctrl hlen h, h]
    exact ⟨"", rfl⟩
  · rw [decode_dispatch_transmit_execute p ctrl hlen h, h]
    exact ⟨"", rfl⟩
  · rw [decode_dispatch_get_status p ctrl hlen h, h]
    exact ⟨"", rfl⟩
  · rw [decode_dispatch_reset p ctrl hlen h, h]
    rw [show cmd_name 7 = "RESET" from rfl]
    simp only [_parse_cmd_reset]
    rw [show ("RESET: " : String) = "RESET" ++ ": " from rfl]
    exact append2_head _ _ _
  · rw [decode_dispatch_save_next p ctrl hlen h, h]
    rw [show cmd_name 8 = "SAVE_NEXT" from rfl]
    simp only [_parse_cmd_save_next]
    rw [show ("SAVE_NEXT: STATE " : String) = "SAVE_NEXT" ++ ": STATE " from rfl]
    exact append2_head _ _ _
  · rw [decode_dispatch_save p ctrl hlen h, h]
    exact ⟨"", rfl⟩
  · rw [decode_dispatch_set_speed p ctrl hlen h, h]
    rw [show cmd_name 14 = "SET_SPEED" from rfl]
    simp only [_parse_cmd_set_speed]
    rw [show ("SET_SPEED: " : String) = "SET_SPEED" ++ ": " from rfl]
    exact append2_head _ _ _

theorem decode_known_opcode_starts_with_name_witness :
    (([2, 3, 1, 1, 2, 3, 255, 0, 128, 0, 0, 0] : List Int).length = 12
      ∧ ([2, 3, 1, 1, 2, 3, 255, 0, 128, 0, 0, 0] : List Int).getD 1 0 ∈ knownCmds)
      ∧ ∃ rest, pkt_to_string [2, 3, 1, 1, 2, 3, 255, 0, 128, 0, 0, 0] nullController
          = cmd_name (([2, 3, 1, 1, 2, 3, 255, 0, 128, 0, 0, 0] : List Int).getD 1 0) ++ rest :=
  ⟨⟨by decide, by decide⟩,
    decode_known_opcode_starts_with_name [2, 3, 1, 1, 2, 3, 255, 0, 128, 0, 0, 0]
      nullController (by decide) (by decide)⟩

/-- C10: the decoder never inspects byte 0 of a 12-byte packet: two packets
that differ only in byte 0 and carry a known opcode in byte 1 decode to the
same string, for every controller — the 0x02 marker is not checked. -/
theorem decode_ignores_marker_byte (b0 b0q : Int) (rest : List Int) (ctrl : Controller)
    (hlen : rest.length = 11) (hcmd : rest.getD 0 0 ∈ knownCmds) :
    pkt_to_string (b0 :: rest) ctrl = pkt_to_string (b0q :: rest) ctrl := by
  have hl1 : (b0 :: rest).length = 12 := by simp [hlen]
  have hl2 : (b0q :: rest).length = 12 := by simp [hlen]
  simp only [knownCmds, CMD_SET_MORPH_COLOUR, CMD_SET_BLINK_COLOUR, CMD_SET_COLOUR,
    CMD_LOOP_BLOCK_END, CMD_TRANSMIT_EXECUTE, CMD_GET_STATUS, CMD_RESET, CMD_SAVE_NEXT,
    CMD_SAVE, CMD_SET_SPEED, List.mem_cons, List.not_mem_nil, or_false] at hcmd
  rcases hcmd with h|h|h|h|h|h|h|h|h|h
  · rw [decode_dispatch_morph _ ctrl hl1 h, decode_dispatch_morph _ ctrl hl2 h]
    rfl
  · rw [decode_dispatch_blink _ ctrl hl1 h, decode_dispatch_blink _ ctrl hl2 h]
    rfl
  · rw [decode_dispatch_colour _ ctrl hl1 h, decode_dispatch_colour _ ctrl hl2 h]
    rfl
  · rw [decode_dispatch_loop_block_end _ ctrl hl1 h,
      decode_dispatch_loop_block_end _ ctrl hl2 h]
    rfl
  · rw [decode_dispatch_transmit_execute _ ctrl hl1 h,
      decode_dispatch_transmit_execute _ ctrl hl2 h]
    rfl
  · rw [decode_dispatch_get_status _ ctrl hl1 h, decode_dispatch_get_status _ ctrl hl2 h]
    rfl
  · rw [decode_dispatch_reset _ ctrl hl1 h, decode_dispatch_reset _ ctrl hl2 h]
    rfl
  · rw [decode_dispatch_save_next _ ctrl hl1 h, decode_dispatch_save_next _ ctrl hl2 h]
    rfl
  · rw [decode_dispatch_save _ ctrl hl1 h, decode_dispatch_save _ ctrl hl2 h]
    rfl
  · rw [decode_dispatch_set_speed _ ctrl hl1 h, decode_dispatch_set_speed _ ctrl hl2 h]
    rfl

theorem decode_ignores_marker_byte_witness :
    (([3, 1, 1, 2, 3, 255, 0, 128, 0, 0, 0] : List Int).length = 11
      ∧ ([3, 1, 1, 2, 3, 255, 0, 128, 0, 0, 0] : List Int).getD 0 0 ∈ knownCmds)
      ∧ pkt_to_string (2 :: [3, 1, 1, 2, 3, 255, 0, 128, 0, 0, 0]) nullController
          = pkt_to_string (255 :: [3, 1, 1, 2, 3, 255, 0, 128, 0, 0, 0]) nullController :=
  ⟨⟨by decide, by decide⟩,
    decode_ignores_marker_byte 2 255 [3, 1, 1, 2, 3, 255, 0, 128, 0, 0, 0] nullController
      (by decide) (by decide)⟩


theorem option_bind_some (a : Int) (f : Int → Option (String × List Int)) :
    ((some a : Option Int) >>= f) = f a := rfl

set_option maxHeartbeats 1000000 in
theorem decode_run_twelve (b0 b1 b2 b3 b4 b5 b6 b7 b8 b9 b10 b11 : Int) (ctrl : Controller) :
    pkt_to_string_run [b0, b1, b2, b3, b4, b5, b6, b7, b8, b9, b10, b11] ctrl
      = some (pkt_to_string [b0, b1, b2, b3, b4, b5, b6, b7, b8, b9, b10, b11] ctrl,
              [b0, b1, b2, b3, b4, b5, b6, b7, b8, b9, b10, b11]) := by
  have hc : ¬(([b0, b1, b2, b3, b4, b5, b6, b7, b8, b9, b10, b11] : List Int).length ≠ 12) := by
    simp
  simp only [pkt_to_string_run, pkt_to_string, PACKET_LENGTH]
  rw [if_neg hc, if_neg hc]
  simp only [List.get?_cons_succ, List.get?_cons_zero, option_bind_some,
    List.getD_cons_succ, List.getD_cons_zero]
  by_cases h1 : b1 = CMD_SET_MORPH_COLOUR
  · rw [if_pos h1, if_pos h1]; rfl
  rw [if_neg h1, if_neg h1]
  by_cases h2 : b1 = CMD_SET_BLINK_COLOUR
  · rw [if_pos h2, if_pos h2]; rfl
  rw [if_neg h2, if_neg h2]
  by_cases h3 : b1 = CMD_SET_COLOUR
  · rw [if_pos h3, if_pos h3]; rfl
  rw [if_neg h3, if_neg h3]
  by_cases h4 : b1 = CMD_LOOP_BLOCK_END
  · rw [if_pos h4, if_pos h4]; rfl
  rw [if_neg h4, if_neg h4]
  by_cases h5 : b1 = CMD_TRANSMIT_EXECUTE
  · rw [if_pos h5, if_pos h5]; rfl
  rw [if_neg h5, if_neg h5]
  by_cases h6 : b1 = CMD_GET_STATUS
  · rw [if_pos h6, if_pos h6]; rfl
  rw [if_neg h6, if_neg h6]
  by_cases h7 : b1 = CMD_RESET
  · rw [if_pos h7, if_pos h7]; rfl
  rw [if_neg h7, if_neg h7]
  by_cases h8 : b1 = CMD_SAVE_NEXT
  · rw [if_pos h8, if_pos h8]; rfl
  rw [if_neg h8, if_neg h8]
  by_cases h9 : b1 = CMD_SAVE
  · rw [if_pos h9, if_pos h9]; rfl
  rw [if_neg h9, if_neg h9]
  by_cases h10 : b1 = CMD_SET_SPEED
  · rw [if_pos h10, if_pos h10]; rfl
  rw [if_neg h10, if_neg h10]
  rfl

/-- C9: the decoder is total and pure.  For every input byte sequence of
any length and every controller, the operational model `pkt_to_string_run`
— in which every Python indexing is a fallible lookup and the packet
buffer is threaded through and returned — executes without an indexing
failure, produces exactly the string `pkt_to_string` denotes, and returns
the input buffer unchanged. -/
theorem decode_total_and_preserves_input (p : List Int) (ctrl : Controller) :
    pkt_to_string_run p ctrl = some (pkt_to_string p ctrl, p) := by
  by_cases h : p.length = 12
  · rcases p with _ | ⟨b0, _ | ⟨b1, _ | ⟨b2, _ | ⟨b3, _ | ⟨b4, _ | ⟨b5, _ | ⟨b6, _ | ⟨b7,
      _ | ⟨b8, _ | ⟨b9, _ | ⟨b10, _ | ⟨b11, _ | ⟨b12, rest⟩⟩⟩⟩⟩⟩⟩⟩⟩⟩⟩⟩⟩ <;>
      simp only [List.length_nil, List.length_cons] at h <;> try omega
    exact decode_run_twelve b0 b1 b2 b3 b4 b5 b6 b7 b8 b9 b10 b11 ctrl
  · have hne : p.length ≠ PACKET_LENGTH := by simpa [PACKET_LENGTH] using h
    simp only [pkt_to_string_run, pkt_to_string]
    rw [if_pos hne, if_pos hne]

end AlienFX
